import Mathlib

/-!
# Verification of the Friday voice assistant (src/Friday.py, src/music_library.py)

A shallow embedding of the pure logic of the Friday voice assistant:
the Python string operations it uses (`str.replace`, `in`, `str.strip`,
`str.startswith`, `str.split`), the voice-calculator normalizer and its
arithmetic evaluator, the music-library lookup, the weather stub, the
reminder scheduler (as an event-level state transformer: the real code
runs the firing body on a detached timer thread; here scheduling and
firing are two explicit steps on an assistant state), the conversation
context buffer of `ask_llama`, the command router
`handle_voice_command`, and one iteration of the `run` session loop.

External collaborators (microphone, speech APIs, browser, LLM) are
represented by an `Env` record of the values the code reads from them
and by an `Action` datatype recording the side effects each branch
performs, in order.
-/

namespace Friday

/-! ## Python string primitives (on `List Char`, lifted to `String`) -/

/-- `isPre pat l` is true when `pat` is a prefix of `l` (Python slicing test
used by `str.replace` when scanning for an occurrence). -/
def isPre : List Char → List Char → Bool
  | [], _ => true
  | _ :: _, [] => false
  | p :: ps, c :: cs => p == c && isPre ps cs

/-- Python `pat in s` on character lists: some suffix of `l` starts with `pat`. -/
def containsL (pat : List Char) : List Char → Bool
  | [] => pat.isEmpty
  | c :: cs => isPre pat (c :: cs) || containsL pat cs

/-- Python's left-to-right, non-overlapping `str.replace`, fuel-indexed so that
it is structurally recursive (the fuel is always instantiated with the length
of the subject string, which suffices because every step consumes at least one
character when the pattern is nonempty). -/
def replaceAux (pat rep : List Char) : Nat → List Char → List Char
  | _, [] => []
  | 0, l => l
  | f + 1, c :: cs =>
    if isPre pat (c :: cs) && !pat.isEmpty then
      rep ++ replaceAux pat rep f (List.drop pat.length (c :: cs))
    else
      c :: replaceAux pat rep f cs

/-- `s.replace(pat, rep)` on character lists. -/
def replaceL (l pat rep : List Char) : List Char :=
  replaceAux pat rep l.length l

/-- Python `s.replace(old, new)` (all non-overlapping occurrences, left to right). -/
def replaceStr (s pat rep : String) : String :=
  ⟨replaceL s.data pat.data rep.data⟩

/-- Python `pat in s` (substring containment). -/
def containsStr (s pat : String) : Bool :=
  containsL pat.data s.data

/-- Python `any(k in s for k in kws)`: the router's keyword tests. -/
def containsAny (s : String) (kws : List String) : Bool :=
  kws.any (containsStr s)

/-- Python `s.strip()` on character lists. -/
def trimL (l : List Char) : List Char :=
  ((l.dropWhile Char.isWhitespace).reverse.dropWhile Char.isWhitespace).reverse

/-- Python `s.strip()`. -/
def trimStr (s : String) : String :=
  ⟨trimL s.data⟩

/-- Python `s.startswith(pat)`. -/
def startsWithStr (s pat : String) : Bool :=
  isPre pat.data s.data

/-- Python `s.split()` helper: accumulates the current word (reversed). -/
def splitWsAux : List Char → List Char → List String
  | [], acc => if acc.isEmpty then [] else [⟨acc.reverse⟩]
  | c :: cs, acc =>
    if c.isWhitespace then
      if acc.isEmpty then splitWsAux cs [] else (⟨acc.reverse⟩ : String) :: splitWsAux cs []
    else
      splitWsAux cs (c :: acc)

/-- Python `s.split()` (split on whitespace runs, no empty fields). -/
def splitWs (s : String) : List String :=
  splitWsAux s.data []

/-- Python `words.index(x)` (index of the first occurrence; callers guard membership). -/
def idxOfStr (x : String) : List String → Nat
  | [] => 0
  | w :: ws => if w = x then 0 else idxOfStr x ws + 1

/-- Numeric value of a digit run. -/
def digitsVal (l : List Char) : Nat :=
  l.foldl (fun n c => n * 10 + (c.toNat - 48)) 0

/-- `re.search(r'\d+', s)` followed by `int(...)`: the first maximal digit run. -/
def firstNatAux : List Char → Option Nat
  | [] => none
  | c :: cs =>
    if c.isDigit then some (digitsVal (c :: cs.takeWhile Char.isDigit))
    else firstNatAux cs

/-- First integer embedded in `s`, as `re.search(r'\d+', s)` finds it. -/
def firstNat (s : String) : Option Nat :=
  firstNatAux s.data

/-! ## The evaluator behind `eval` in `voice_calculator`

`voice_calculator` hands the normalized string to Python's `eval` inside a
`try/except Exception`.  `eval` is modelled on the expression fragment the
calculator's arguments exercise: integer literals combined with `+ - * / **`
at Python precedence, and single-quoted string literals combined with `+`
(concatenation) and `*` (repetition).  A string outside that fragment
evaluates to `none`, which the calculator maps to the apology; this agrees
with Python wherever `eval` raises an `Exception` — `SyntaxError` on a
corrupted number word such as "9teen" or on empty input, `NameError` on a
bare identifier, `TypeError` on a mixed operation such as adding a string
to an integer.  Two behaviours of the source lie outside the model and are
conservatively folded into the failure branch, so no theorem below equates
the failure branch with Python's on such inputs: Python's float-valued true
division (`eval("2 / 4")` is `0.5`, while the model only accepts exact
integer division, and likewise a negative exponent), and raises outside the
`Exception` hierarchy — `eval("exit()")` raises `SystemExit`, which the
source's `except Exception` does not catch, so that call propagates out of
`voice_calculator` entirely (see the C5 analysis below). -/

/-- The single-quote character, Python's string-literal delimiter. -/
def squote : Char := Char.ofNat 39

/-- The values the modelled fragment of `eval` can produce. -/
inductive PyVal where
  | int (n : Int)
  | str (s : String)
deriving DecidableEq

/-- Python's f-string rendering of a result (`f"The answer is {result}"`):
integers print in decimal, strings print their characters unquoted. -/
def pyRender : PyVal → String
  | PyVal.int n => toString n
  | PyVal.str s => s

inductive Tok where
  | num (n : Nat)
  | strlit (s : String)
  | plus
  | minus
  | star
  | slash
  | dstar
deriving DecidableEq

/-- Emit the pending number literal, if any. -/
def flushNum (acc : Option Nat) (ts : List Tok) : List Tok :=
  match acc with
  | none => ts
  | some n => Tok.num n :: ts

/-- Scan a single-quoted string literal: the content and the characters
after the closing quote, or `none` when unterminated (Python: `SyntaxError`). -/
def takeStr : List Char → Option (List Char × List Char)
  | [] => none
  | c :: cs =>
    if c = squote then some ([], cs)
    else (takeStr cs).map (fun p => (c :: p.1, p.2))

/-- Tokenizer, fuel-indexed (the fuel is instantiated with the input length
plus one, which suffices because every step consumes at least one
character): digits build a literal, `**` is matched before `*`, a single
quote opens a string literal, whitespace separates, anything else is a
lexical error. -/
def tokAux : Nat → List Char → Option Nat → Option (List Tok)
  | 0, _, _ => none
  | _ + 1, [], acc => some (flushNum acc [])
  | f + 1, '*' :: '*' :: cs, acc => (tokAux f cs none).map (fun ts => flushNum acc (Tok.dstar :: ts))
  | f + 1, c :: cs, acc =>
    if c.isDigit then
      tokAux f cs (some ((acc.getD 0) * 10 + (c.toNat - 48)))
    else if c.isWhitespace then
      (tokAux f cs none).map (flushNum acc)
    else if c = '+' then
      (tokAux f cs none).map (fun ts => flushNum acc (Tok.plus :: ts))
    else if c = '-' then
      (tokAux f cs none).map (fun ts => flushNum acc (Tok.minus :: ts))
    else if c = '/' then
      (tokAux f cs none).map (fun ts => flushNum acc (Tok.slash :: ts))
    else if c = '*' then
      (tokAux f cs none).map (fun ts => flushNum acc (Tok.star :: ts))
    else if c = squote then
      match takeStr cs with
      | some p => (tokAux f p.2 none).map (fun ts => flushNum acc (Tok.strlit ⟨p.1⟩ :: ts))
      | none => none
    else
      none

/-- Python `+`: integer addition and string concatenation; a mixed
operation is a `TypeError`. -/
def pyAdd : PyVal → PyVal → Option PyVal
  | PyVal.int a, PyVal.int b => some (PyVal.int (a + b))
  | PyVal.str a, PyVal.str b => some (PyVal.str (a ++ b))
  | _, _ => none

/-- Python `-` (a string operand is a `TypeError`). -/
def pySub : PyVal → PyVal → Option PyVal
  | PyVal.int a, PyVal.int b => some (PyVal.int (a - b))
  | _, _ => none

/-- Python string repetition `s * n` (empty for a non-positive count). -/
def strRepeat (s : String) (n : Int) : String :=
  ⟨(List.replicate n.toNat s.data).flatten⟩

/-- Python `*`: integer product and sequence repetition. -/
def pyMul : PyVal → PyVal → Option PyVal
  | PyVal.int a, PyVal.int b => some (PyVal.int (a * b))
  | PyVal.str s, PyVal.int n => some (PyVal.str (strRepeat s n))
  | PyVal.int n, PyVal.str s => some (PyVal.str (strRepeat s n))
  | _, _ => none

/-- Python `/` restricted to exact integer division; a float-valued or zero
division is outside the model and fails conservatively, and a string
operand is a `TypeError`. -/
def pyDiv : PyVal → PyVal → Option PyVal
  | PyVal.int a, PyVal.int b =>
    if b ≠ 0 ∧ b ∣ a then some (PyVal.int (a / b)) else none
  | _, _ => none

/-- Python unary minus (a string operand is a `TypeError`). -/
def pyNeg : PyVal → Option PyVal
  | PyVal.int n => some (PyVal.int (-n))
  | _ => none

/-- Python `**` with integer base: a negative exponent gives a float in
Python and is outside the model; a string exponent is a `TypeError`. -/
def pyPow : Int → PyVal → Option PyVal
  | a, PyVal.int b => if b < 0 then none else some (PyVal.int (a ^ b.toNat))
  | _, _ => none

/-- Unary minus and right-associative `**` (Python precedence:
`-2**2 = -(2**2)`), fuel-indexed. -/
def parseAtomF : Nat → List Tok → Option (PyVal × List Tok)
  | 0, _ => none
  | f + 1, Tok.minus :: ts =>
    (parseAtomF f ts).bind fun vr => (pyNeg vr.1).map (fun v => (v, vr.2))
  | f + 1, Tok.num n :: Tok.dstar :: ts2 =>
    (parseAtomF f ts2).bind fun er => (pyPow (Int.ofNat n) er.1).map (fun v => (v, er.2))
  | _ + 1, Tok.num n :: ts => some (PyVal.int (Int.ofNat n), ts)
  | _ + 1, Tok.strlit _ :: Tok.dstar :: _ => none
  | _ + 1, Tok.strlit s :: ts => some (PyVal.str s, ts)
  | _ + 1, _ => none

/-- `*` and `/` chains, left-associative. -/
def parseTermLoop : Nat → PyVal → List Tok → Option (PyVal × List Tok)
  | 0, _, _ => none
  | f + 1, v, Tok.star :: ts =>
    (parseAtomF (f + 1) ts).bind fun wr =>
      (pyMul v wr.1).bind fun u => parseTermLoop f u wr.2
  | f + 1, v, Tok.slash :: ts =>
    (parseAtomF (f + 1) ts).bind fun wr =>
      (pyDiv v wr.1).bind fun u => parseTermLoop f u wr.2
  | _ + 1, v, ts => some (v, ts)

/-- A multiplicative term. -/
def parseTermF (f : Nat) (ts : List Tok) : Option (PyVal × List Tok) :=
  (parseAtomF f ts).bind fun vr => parseTermLoop f vr.1 vr.2

/-- `+` and `-` chains, left-associative. -/
def parseExprLoop : Nat → PyVal → List Tok → Option (PyVal × List Tok)
  | 0, _, _ => none
  | f + 1, v, Tok.plus :: ts =>
    (parseTermF (f + 1) ts).bind fun wr =>
      (pyAdd v wr.1).bind fun u => parseExprLoop f u wr.2
  | f + 1, v, Tok.minus :: ts =>
    (parseTermF (f + 1) ts).bind fun wr =>
      (pySub v wr.1).bind fun u => parseExprLoop f u wr.2
  | _ + 1, v, ts => some (v, ts)

/-- A full expression. -/
def parseExprF (f : Nat) (ts : List Tok) : Option (PyVal × List Tok) :=
  (parseTermF f ts).bind fun vr => parseExprLoop f vr.1 vr.2

/-- The model of `eval(expression)` as used by `voice_calculator`. -/
def pyEvalV (s : String) : Option PyVal :=
  match tokAux (s.data.length + 1) s.data none with
  | none => none
  | some ts =>
    match parseExprF (ts.length + 1) ts with
    | some (v, []) => some v
    | _ => none

/-- The integer-valued results of the evaluator: the fragment the concrete
integer-arithmetic facts below quantify over. -/
def pyEval (s : String) : Option Int :=
  match pyEvalV s with
  | some (PyVal.int n) => some n
  | _ => none

/-! ## `voice_calculator` (src/Friday.py lines 337-364) -/

/-- The word-to-digit table of `voice_calculator`, in the source's insertion
order, which is the order Python iterates the dict in. -/
def wordToNum : List (String × String) :=
  [("zero", "0"), ("one", "1"), ("two", "2"), ("three", "3"), ("four", "4"),
   ("five", "5"), ("six", "6"), ("seven", "7"), ("eight", "8"), ("nine", "9"),
   ("ten", "10"), ("eleven", "11"), ("twelve", "12"), ("thirteen", "13"),
   ("fourteen", "14"), ("fifteen", "15"), ("sixteen", "16"), ("seventeen", "17"),
   ("eighteen", "18"), ("nineteen", "19"), ("twenty", "20")]

/-- The normalization pipeline of `voice_calculator`: the exact sequence of
`str.replace` calls of the source, followed by the word-number loop. -/
def calcNormalize (input : String) : String :=
  let e := trimStr (replaceStr (replaceStr input "calculate" "") "what is" "")
  let e := replaceStr (replaceStr e "plus" "+") "add" "+"
  let e := replaceStr (replaceStr e "minus" "-") "subtract" "-"
  let e := replaceStr (replaceStr e "times" "*") "multiply" "*"
  let e := replaceStr (replaceStr e "divided by" "/") "divide" "/"
  let e := replaceStr (replaceStr e "to the power of" "**") "squared" "**2"
  let e := replaceStr e "cubed" "**3"
  wordToNum.foldl (fun acc wn => replaceStr acc wn.1 wn.2) e

/-- The apology `voice_calculator` returns when `eval` raises. -/
def calcFailMsg : String :=
  "I couldn't calculate that. Please try rephrasing the math problem."

/-- `voice_calculator(expression)`: normalize, evaluate, answer or apologize. -/
def voiceCalculator (input : String) : String :=
  match pyEvalV (calcNormalize input) with
  | some r => "The answer is " ++ pyRender r
  | none => calcFailMsg

example : voiceCalculator "what is five plus three" = "The answer is 8" := by decide
example : voiceCalculator "calculate ten times ten" = "The answer is 100" := by decide
example : voiceCalculator "calculate nineteen plus one" = calcFailMsg := by decide
example : pyEvalV "'a'+'b'" = some (PyVal.str "ab") := by decide
example : pyEvalV "1+'a'" = none := by decide
example : calcNormalize "calculate nineteen plus one" = "9teen + 1" := by decide

/-! ## The music library (src/music_library.py) -/

/-- The `music` dict of src/music_library.py, in source order. -/
def music : List (String × String) :=
  [("shape of you", "https://youtu.be/JGwWNGJdvx8"),
   ("blinding lights", "https://youtu.be/4NRXx6U8ABQ"),
   ("perfect", "https://youtu.be/2Vv-BfVoq4g"),
   ("someone like you", "https://youtu.be/hLQl3WQQoQ0"),
   ("despacito", "https://youtu.be/kJQP7kiw5Fk"),
   ("bad guy", "https://youtu.be/DyDfgMOUjCI"),
   ("uptown funk", "https://youtu.be/OPf0YbXqDm0"),
   ("hello", "https://youtu.be/YQHsXMglC9A"),
   ("thinking out loud", "https://youtu.be/lp-EO5I60KA"),
   ("rolling in the deep", "https://youtu.be/rYEDA3JcQqw"),
   ("tum hi ho", "https://youtu.be/IJq0yyWug1k"),
   ("kal ho na ho", "https://youtu.be/tVMAQAsjsOU"),
   ("gerua", "https://youtu.be/AEIVhBS6baE"),
   ("channa mereya", "https://youtu.be/bzSTpdcs-EI"),
   ("ae dil hai mushkil", "https://youtu.be/8wU29tAcVys"),
   ("raabta", "https://youtu.be/eHJPVRBV3nM"),
   ("dil diyan gallan", "https://youtu.be/SAcpESN_Fk4"),
   ("ishq wala love", "https://youtu.be/3HdGNBT6fa8"),
   ("gulabi aankhein", "https://youtu.be/5M7aVNKffys"),
   ("kabira", "https://youtu.be/jHNNMj5bNQw"),
   ("bohemian rhapsody", "https://youtu.be/fJ9rUzIMcZQ"),
   ("imagine", "https://youtu.be/YkgkThdzX-8"),
   ("hotel california", "https://youtu.be/BciS5krYL80"),
   ("sweet child of mine", "https://youtu.be/1w7OgIMMRc4"),
   ("stairway to heaven", "https://youtu.be/QkF3oxziUI4"),
   ("as it was", "https://youtu.be/H5v3kku4y6Q"),
   ("heat waves", "https://youtu.be/mRD0-GxqHVo"),
   ("stay", "https://youtu.be/kTJczUoc26U"),
   ("levitating", "https://youtu.be/TUVcZfQe-Kw"),
   ("good 4 u", "https://youtu.be/gNi_6U5Pm_o"),
   ("lofi hip hop", "https://youtu.be/jfKfPfyJRdk"),
   ("chill music", "https://youtu.be/5qap5aO4i9A"),
   ("study music", "https://youtu.be/7NOSDKb0HlU"),
   ("my playlist", "https://youtu.be/AbkEmIgJMcU?si=V6ETJmVWDU2zOEtq"),
   ("workout playlist", "https://youtu.be/iFGc9vpN338"),
   ("party songs", "https://youtu.be/ZbZSe6N_BXs"),
   ("romantic songs", "https://youtu.be/IJq0yyWug1k")]

/-- `song in music_library.music` / `music_library.music[song]` combined:
the URL mapped to an exactly matching key, if any. -/
def musicLookup (song : String) : Option String :=
  (music.find? (fun p => p.1 == song)).map (fun p => p.2)

/-! ## `get_weather` (src/Friday.py lines 295-321)

The function is modelled with its network dependency made explicit: `fetch`
stands for `requests.get(...).json()` (`none` = the request or decoding
raised), and the second component of the result collects the URLs actually
requested, so "no network contact" is the statement that this list is
empty.  The hard-coded placeholder credential check of the source is kept
verbatim. -/

/-- The fields of the weather JSON the code reads. -/
structure WeatherData where
  cod : String
  description : String
  temp : Int
  feelsLike : Int

/-- `get_weather(city)`: returns the spoken message and the list of URLs fetched. -/
def getWeather (requestsAvailable : Bool) (fetch : String → Option WeatherData)
    (city : String) : String × List String :=
  if !requestsAvailable then
    ("Weather service requires the requests package. Please install it.", [])
  else
    let apiKey := "YOUR_WEATHER_API_KEY"
    if apiKey = "YOUR_WEATHER_API_KEY" then
      ("Please configure weather API key for weather updates.", [])
    else
      let url := "http://api.openweathermap.org/data/2.5/weather?appid=" ++ apiKey
        ++ "&q=" ++ city ++ "&units=metric"
      match fetch url with
      | some d =>
        if d.cod ≠ "404" then
          ("Weather in " ++ city ++ ": " ++ d.description ++ ", " ++ toString d.temp
            ++ " degrees, feels like " ++ toString d.feelsLike ++ " degrees.", [url])
        else
          ("Sorry, I couldn't find weather information for " ++ city ++ ".", [url])
      | none => ("Weather service is currently unavailable.", [url])

/-! ## `set_reminder_voice` and its timer body (src/Friday.py lines 323-335)

The source appends `(text, minutes)` to `self.active_reminders`, starts a
detached daemon thread, and returns a confirmation; the thread body sleeps,
speaks one alert, and removes the pair from the list if present.  Real time
is abstracted: scheduling and the later firing of the timer body are two
explicit transitions on an assistant state that records the active
reminders and everything spoken so far. -/

/-- The mutable assistant state the reminder code touches. -/
structure AsstState where
  activeReminders : List (String × Nat)
  spoken : List String
deriving DecidableEq

/-- The confirmation string `set_reminder_voice` returns. -/
def reminderConfirmation (text : String) (minutes : Nat) : String :=
  "Reminder set for " ++ toString minutes ++ " minutes: " ++ text

/-- `set_reminder_voice(reminder_text, minutes)`: record the reminder, start
the timer (its later firing is `reminderFire`), return the confirmation. -/
def setReminderVoice (st : AsstState) (text : String) (minutes : Nat) :
    AsstState × String :=
  ({ st with activeReminders := st.activeReminders ++ [(text, minutes)] },
   reminderConfirmation text minutes)

/-- Python `list.remove(x)`: drop the first occurrence of `x`
(callers guard membership, as the source does). -/
def removeFirst (l : List (String × Nat)) (x : String × Nat) : List (String × Nat) :=
  match l with
  | [] => []
  | y :: ys => if y = x then ys else y :: removeFirst ys x

/-- The body of `reminder_thread` once the sleep elapses: speak the alert,
then remove the pair from the active list if it is still there
(`list.remove` drops the first occurrence). -/
def reminderFire (st : AsstState) (text : String) (minutes : Nat) : AsstState :=
  let st2 : AsstState := { st with spoken := st.spoken ++ ["Reminder alert! " ++ text] }
  if (text, minutes) ∈ st2.activeReminders then
    { st2 with activeReminders := removeFirst st2.activeReminders (text, minutes) }
  else st2

/-! ## The conversation context buffer of `ask_llama` (src/Friday.py lines 281-287) -/

/-- One entry of `self.conversation_context`. -/
structure Turn where
  role : String
  content : String
deriving DecidableEq

/-- A `{'role': 'user', ...}` entry. -/
def userTurn (q : String) : Turn := ⟨"user", q⟩

/-- A `{'role': 'assistant', ...}` entry. -/
def assistantTurn (a : String) : Turn := ⟨"assistant", a⟩

/-- Lines 286-287: `if len(ctx) > 20: ctx = ctx[-20:]`. -/
def truncateCtx (l : List Turn) : List Turn :=
  if l.length > 20 then l.drop (l.length - 20) else l

/-- The context update a successful `ask_llama` call performs (lines 282-287):
append the user turn and the assistant turn, then cap at 20. -/
def askLlamaCtxStep (ctx : List Turn) (qa : String × String) : List Turn :=
  truncateCtx (ctx ++ [userTurn qa.1, assistantTurn qa.2])

/-- The full chronological sequence of turns a list of question/answer
exchanges generates. -/
def turnsOf : List (String × String) → List Turn
  | [] => []
  | qa :: ps => userTurn qa.1 :: assistantTurn qa.2 :: turnsOf ps

/-- The last `n` entries of a list (`l[-n:]` when `n ≤ len(l)`, else all of `l`). -/
def lastN (l : List Turn) (n : Nat) : List Turn :=
  l.drop (l.length - n)

/-! ## `handle_voice_command` (src/Friday.py lines 366-528)

The router is modelled as a pure function from the command (and an `Env`
record holding everything the code would obtain from the outside world
during the branch: follow-up `listen()` results, availability flags, the
wall clock, the Wikipedia lookup result) to the control token it returns
plus the ordered list of side effects it performs.  `Action.converse q c`
stands for `self.speak(self.ask_llama(q, c))`: the question forwarded to
the language model with the given context type and its response spoken. -/

/-- The side effects a router branch can perform, in order. -/
inductive Action where
  | speak (text : String)
  | openUrl (url : String)
  | press (key : String) (count : Nat)
  | httpGet (url : String)
  | converse (question : String) (contextType : String)
  | setReminder (text : String) (minutes : Nat)
deriving DecidableEq

/-- Everything `handle_voice_command` reads from outside during one call. -/
structure Env where
  googleQuery : String
  reminderText : String
  minutesText : String
  topicText : String
  wikiResult : String → Option String
  requestsAvailable : Bool
  pyautoguiAvailable : Bool
  wikipediaAvailable : Bool
  llamaAvailable : Bool
  fetchWeather : String → Option WeatherData
  currentTime : String
  currentDate : String

/-- A closed environment used to evaluate the router at concrete inputs. -/
def env0 : Env :=
  { googleQuery := "", reminderText := "", minutesText := "", topicText := "",
    wikiResult := fun _ => none, requestsAvailable := true,
    pyautoguiAvailable := true, wikipediaAvailable := true, llamaAvailable := true,
    fetchWeather := fun _ => none,
    currentTime := "10:00 AM", currentDate := "October 12, 2026" }

/-- `handle_voice_command(command)`: the if/elif chain of the source, in
source order; first matching branch wins.  Returns the control token
(`"exit"`, `"sleep"` or `"continue"`) and the branch's side effects. -/
def handleVoiceCommand (env : Env) (command : String) : String × List Action :=
  if containsAny command ["exit", "quit", "goodbye friday"] then
    ("exit", [Action.speak "Goodbye boss, Friday is going offline!"])
  else if containsAny command ["stop listening", "sleep friday"] then
    ("sleep", [Action.speak "I'll stop listening. Say 'Friday' to wake me up again."])
  else if containsAny command ["open youtube", "youtube"] then
    ("continue", [Action.openUrl "https://youtube.com", Action.speak "Opening YouTube"])
  else if containsAny command ["open instagram", "instagram"] then
    ("continue", [Action.openUrl "https://instagram.com", Action.speak "Opening Instagram"])
  else if containsAny command ["open github", "github"] then
    ("continue", [Action.openUrl "https://github.com", Action.speak "Opening GitHub"])
  else if containsAny command ["open google", "google search"] then
    ("continue", Action.speak "What would you like me to search for?" ::
      (if env.googleQuery ≠ "" ∧ env.googleQuery ≠ "timeout" then
        [Action.openUrl ("https://www.google.com/search?q=" ++ env.googleQuery),
         Action.speak ("Searching Google for " ++ env.googleQuery)]
       else []))
  else if containsStr command "time" then
    ("continue", [Action.speak ("It's " ++ env.currentTime)])
  else if containsStr command "date" then
    ("continue", [Action.speak ("Today is " ++ env.currentDate)])
  else if containsStr command "weather" then
    ("continue",
      let city :=
        if containsStr command "in" then
          let words := splitWs command
          if words.contains "in" then
            let cityIndex := idxOfStr "in" words + 1
            if cityIndex < words.length then words.getD cityIndex "Delhi" else "Delhi"
          else "Delhi"
        else "Delhi"
      let wr := getWeather env.requestsAvailable env.fetchWeather city
      wr.2.map Action.httpGet ++ [Action.speak wr.1])
  else if containsAny command ["calculate", "math", "what is", "plus", "minus", "times", "divide"] then
    ("continue", [Action.speak (voiceCalculator command)])
  else if containsAny command ["remind me", "set reminder"] then
    ("continue", Action.speak "What should I remind you about?" ::
      (if env.reminderText ≠ "" ∧ env.reminderText ≠ "timeout" then
        Action.speak "In how many minutes?" ::
          (match firstNat env.minutesText with
           | some m =>
             [Action.setReminder env.reminderText m,
              Action.speak (reminderConfirmation env.reminderText m)]
           | none => [Action.speak "I didn't understand the time. Please try again."])
       else []))
  else if containsStr command "volume up" then
    ("continue",
      if env.pyautoguiAvailable then
        [Action.press "volumeup" 3, Action.speak "Volume increased"]
      else [Action.speak "System control not available"])
  else if containsStr command "volume down" then
    ("continue",
      if env.pyautoguiAvailable then
        [Action.press "volumedown" 3, Action.speak "Volume decreased"]
      else [Action.speak "System control not available"])
  else if containsStr command "mute" then
    ("continue",
      if env.pyautoguiAvailable then
        [Action.press "volumemute" 1, Action.speak "Audio muted"]
      else [Action.speak "System control not available"])
  else if containsAny command ["tell me about", "information about"] then
    ("continue",
      let topic0 := trimStr (replaceStr (replaceStr command "tell me about" "") "information about" "")
      let topic := if topic0 = "" then env.topicText else topic0
      (if topic0 = "" then [Action.speak "What would you like to know about?"] else []) ++
      (if topic ≠ "" ∧ topic ≠ "timeout" then
        (if env.wikipediaAvailable then
          match env.wikiResult topic with
          | some info => [Action.speak info]
          | none =>
            if env.llamaAvailable then [Action.converse ("Tell me about " ++ topic) "general"]
            else [Action.speak ("I don't have detailed information about " ++ topic ++ " right now.")]
         else [Action.converse ("Tell me about " ++ topic) "general"])
       else []))
  else if startsWithStr command "play" then
    ("continue",
      let song := trimStr (replaceStr command "play" "")
      match musicLookup song with
      | some url => [Action.openUrl url, Action.speak ("Playing " ++ song)]
      | none =>
        [Action.openUrl ("https://www.youtube.com/results?search_query="
           ++ replaceStr song " " "+"),
         Action.speak ("Searching for " ++ song ++ " on YouTube")])
  else
    let contextType :=
      if containsAny command ["how to", "steps", "guide", "tutorial"] then "task"
      else if containsAny command ["story", "poem", "creative", "imagine"] then "creative"
      else "general"
    ("continue", [Action.converse command contextType])

/-- The disjunction of every branch test that precedes the `play` branch,
in source order. -/
def matchesEarlierBranch (command : String) : Bool :=
  containsAny command ["exit", "quit", "goodbye friday"] ||
  containsAny command ["stop listening", "sleep friday"] ||
  containsAny command ["open youtube", "youtube"] ||
  containsAny command ["open instagram", "instagram"] ||
  containsAny command ["open github", "github"] ||
  containsAny command ["open google", "google search"] ||
  containsStr command "time" ||
  containsStr command "date" ||
  containsStr command "weather" ||
  containsAny command ["calculate", "math", "what is", "plus", "minus", "times", "divide"] ||
  containsAny command ["remind me", "set reminder"] ||
  containsStr command "volume up" ||
  containsStr command "volume down" ||
  containsStr command "mute" ||
  containsAny command ["tell me about", "information about"]

/-- The disjunction of every branch test of the router: a command matching
none of these falls through to the conversational branch. -/
def matchesAnyRouterBranch (command : String) : Bool :=
  matchesEarlierBranch command || startsWithStr command "play"

/-- One iteration of the `run` loop (lines 535-557), given the wake-word
transcript and the command transcript: `true` means the loop keeps
listening, `false` means it breaks out.  The only `break` reachable from a
command is the one on the `"exit"` token. -/
def runStep (env : Env) (wake command : String) : Bool :=
  if wake = "timeout" then true
  else if containsStr wake "friday" then
    if command ≠ "" ∧ command ≠ "timeout" then
      if (handleVoiceCommand env command).1 = "exit" then false else true
    else true
  else true

example : (handleVoiceCommand env0 "please exit now").1 = "exit" := by decide
example : (handleVoiceCommand env0 "play shape of you").2 =
    [Action.openUrl "https://youtu.be/JGwWNGJdvx8", Action.speak "Playing shape of you"] := by
  decide
example : (handleVoiceCommand env0 "play my playlist").2 =
    [Action.openUrl "https://www.youtube.com/results?search_query=my+list",
     Action.speak "Searching for my list on YouTube"] := by decide
example : (handleVoiceCommand env0 "tell me a story").2 =
    [Action.converse "tell me a story" "creative"] := by decide
example : runStep env0 "hey friday" "please exit now" = false := by decide
example :
    (music.filter (fun p => !containsStr p.1 "play")).all
      (fun p => !matchesEarlierBranch ("play " ++ p.1) && (trimStr p.1 == p.1)) = true := by
  decide
example : (music.filter (fun p => containsStr p.1 "play")).map (fun p => p.1)
    = ["my playlist", "workout playlist"] := by decide

/-! ## Helper lemmas -/

theorem truncate_eq_lastN (l : List Turn) : truncateCtx l = lastN l 20 := by
  unfold truncateCtx lastN
  split
  · rfl
  · next h => rw [Nat.sub_eq_zero_of_le (by omega), List.drop_zero]

theorem lastN_lastN (l : List Turn) (m : Nat) (h : m ≤ 20) :
    lastN (lastN l 20) m = lastN l m := by
  unfold lastN
  rw [List.length_drop, List.drop_drop]
  congr 1
  omega

theorem lastN_append (l y : List Turn) (h : y.length ≤ 20) :
    lastN (l ++ y) 20 = lastN l (20 - y.length) ++ y := by
  unfold lastN
  rw [List.length_append, List.drop_append_of_le_length (by omega)]
  have hn : l.length + y.length - 20 = l.length - (20 - y.length) := by omega
  rw [hn]

theorem step_lastN (l : List Turn) (qa : String × String) :
    askLlamaCtxStep (lastN l 20) qa = lastN (l ++ [userTurn qa.1, assistantTurn qa.2]) 20 := by
  unfold askLlamaCtxStep
  rw [truncate_eq_lastN, lastN_append (lastN l 20) _ (by simp),
      lastN_lastN l _ (Nat.sub_le _ _), ← lastN_append l _ (by simp)]

theorem foldl_lastN (pairs : List (String × String)) :
    ∀ l : List Turn,
      pairs.foldl askLlamaCtxStep (lastN l 20) = lastN (l ++ turnsOf pairs) 20 := by
  induction pairs with
  | nil => intro l; simp [turnsOf, lastN]
  | cons qa ps ih =>
    intro l
    rw [List.foldl_cons, step_lastN, ih (l ++ [userTurn qa.1, assistantTurn qa.2])]
    simp [turnsOf]

theorem isPre_refl_append (pat rest : List Char) : isPre pat (pat ++ rest) = true := by
  induction pat with
  | nil => rfl
  | cons p ps ih => simp [isPre, ih]

theorem replaceAux_no_occurrence (pat rep : List Char) :
    ∀ (f : Nat) (l : List Char), l.length ≤ f → containsL pat l = false →
      replaceAux pat rep f l = l := by
  intro f
  induction f with
  | zero =>
    intro l hl hc
    have : l = [] := List.eq_nil_of_length_eq_zero (Nat.le_zero.mp hl)
    subst this
    rfl
  | succ f ih =>
    intro l hl hc
    cases l with
    | nil => rfl
    | cons c cs =>
      unfold containsL at hc
      rw [Bool.or_eq_false_iff] at hc
      unfold replaceAux
      rw [hc.1]
      simp only [Bool.false_and, if_false, Bool.false_eq_true, ite_false]
      have hlen : cs.length ≤ f := by
        simp only [List.length_cons] at hl
        omega
      rw [ih cs hlen hc.2]

theorem replaceStr_play (t : String) (h : containsStr t "play" = false) :
    replaceStr ("play " ++ t) "play" "" = " " ++ t := by
  obtain ⟨l⟩ := t
  have hc : containsL "play".data l = false := h
  apply String.ext
  show replaceAux "play".data "".data ('p' :: 'l' :: 'a' :: 'y' :: ' ' :: l).length
      ('p' :: 'l' :: 'a' :: 'y' :: ' ' :: l) = ' ' :: l
  have hstep : replaceAux "play".data "".data ('p' :: 'l' :: 'a' :: 'y' :: ' ' :: l).length
      ('p' :: 'l' :: 'a' :: 'y' :: ' ' :: l)
      = replaceAux "play".data "".data (l.length + 4) (' ' :: l) := by
    have hlen : ('p' :: 'l' :: 'a' :: 'y' :: ' ' :: l).length = (l.length + 4) + 1 := by
      simp only [List.length_cons]
      try omega
    rw [hlen]
    rfl
  rw [hstep]
  have hc2 : containsL "play".data (' ' :: l) = false := by
    unfold containsL
    rw [Bool.or_eq_false_iff]
    exact ⟨rfl, hc⟩
  rw [replaceAux_no_occurrence "play".data "".data (l.length + 4) (' ' :: l)
    (by simp only [List.length_cons]; omega) hc2]

theorem trimStr_space_cons (t : String) : trimStr (" " ++ t) = trimStr t := by
  obtain ⟨l⟩ := t
  show trimStr ⟨' ' :: l⟩ = trimStr ⟨l⟩
  unfold trimStr trimL
  apply String.ext
  show ((List.dropWhile Char.isWhitespace (' ' :: l)).reverse.dropWhile Char.isWhitespace).reverse
      = ((List.dropWhile Char.isWhitespace l).reverse.dropWhile Char.isWhitespace).reverse
  have : List.dropWhile Char.isWhitespace (' ' :: l) = List.dropWhile Char.isWhitespace l := by
    simp [List.dropWhile]
  rw [this]

theorem removeFirst_append_singleton (l : List (String × Nat)) (x : String × Nat)
    (h : x ∉ l) : removeFirst (l ++ [x]) x = l := by
  induction l with
  | nil => simp [removeFirst]
  | cons y ys ih =>
    simp only [List.mem_cons, not_or] at h
    show removeFirst (y :: (ys ++ [x])) x = y :: ys
    unfold removeFirst
    rw [if_neg (fun hyx => h.1 hyx.symm), ih h.2]

theorem tokenOf_ite {b : Prop} [Decidable b] {x y : String × List Action}
    (hx : x.1 = "exit" ∨ x.1 = "sleep" ∨ x.1 = "continue")
    (hy : y.1 = "exit" ∨ y.1 = "sleep" ∨ y.1 = "continue") :
    (if b then x else y).1 = "exit" ∨ (if b then x else y).1 = "sleep" ∨
      (if b then x else y).1 = "continue" := by
  by_cases hb : b
  · rw [if_pos hb]; exact hx
  · rw [if_neg hb]; exact hy

/-! ## The claims -/

/-- C1: every command containing one of the exit keywords `"exit"`, `"quit"`,
`"goodbye friday"` makes `handle_voice_command` return `"exit"` regardless of
the rest of the command (the exit test is the first branch of the router),
and an iteration of the `run` loop that reaches `handle_voice_command` with
such a command breaks out of the session loop. -/
theorem exit_keyword_routes_exit (env : Env) (command : String)
    (h : containsAny command ["exit", "quit", "goodbye friday"] = true) :
    (handleVoiceCommand env command).1 = "exit" ∧
    (∀ wake : String, wake ≠ "timeout" → containsStr wake "friday" = true →
      command ≠ "" → command ≠ "timeout" → runStep env wake command = false) := by
  have h1 : (handleVoiceCommand env command).1 = "exit" := by
    simp [handleVoiceCommand, h]
  refine ⟨h1, ?_⟩
  intro wake hw hf hc ht
  simp [runStep, hw, hf, hc, ht, h1]

/-- Witness for C1: the command "please exit now" contains "exit", routes to
"exit", and terminates the loop after the wake word "hey friday". -/
theorem exit_keyword_routes_exit_witness :
    containsAny "please exit now" ["exit", "quit", "goodbye friday"] = true ∧
    (handleVoiceCommand env0 "please exit now").1 = "exit" ∧
    runStep env0 "hey friday" "please exit now" = false := by
  refine ⟨by decide, (exit_keyword_routes_exit env0 "please exit now" (by decide)).1, ?_⟩
  exact (exit_keyword_routes_exit env0 "please exit now" (by decide)).2 "hey friday"
    (by decide) (by decide) (by decide) (by decide)

/-- C2: after any sequence of successful `ask_llama` calls starting from the
empty context (each call appending a user turn and an assistant turn and then
capping at 20), the buffer has at most 20 entries and equals exactly the most
recent turns of the full chronological sequence, in order; and the cap
operation applied to a buffer of 25 turns keeps exactly the last 20 in
original order. -/
theorem conversation_buffer_cap (pairs : List (String × String)) :
    (pairs.foldl askLlamaCtxStep []).length ≤ 20 ∧
    pairs.foldl askLlamaCtxStep []
      = (turnsOf pairs).drop ((turnsOf pairs).length - 20) ∧
    truncateCtx ((List.range 25).map fun i => userTurn (toString i))
      = ((List.range 25).map fun i => userTurn (toString i)).drop 5 := by
  have h0 : (lastN ([] : List Turn) 20) = ([] : List Turn) := rfl
  have h := foldl_lastN pairs []
  rw [h0] at h
  simp only [List.nil_append] at h
  refine ⟨?_, ?_, ?_⟩
  · rw [h]
    unfold lastN
    rw [List.length_drop]
    omega
  · rw [h]
    rfl
  · decide

/-- C3: the two concrete calculator examples of the spec: "what is five plus
three" normalizes to an expression evaluating to 8 and the reply is
"The answer is 8"; "calculate ten times ten" evaluates to 100 and the reply
is "The answer is 100". -/
theorem calculator_concrete_examples :
    pyEval (calcNormalize "what is five plus three") = some 8 ∧
    voiceCalculator "what is five plus three" = "The answer is 8" ∧
    pyEval (calcNormalize "calculate ten times ten") = some 100 ∧
    voiceCalculator "calculate ten times ten" = "The answer is 100" := by
  decide

/-- C5: the code violates its claimed edge-case policy, so this theorem
evaluates the code at a failing input instead of proving the claim.  On
the non-numeric input "'a'+'b'" the normalizer changes nothing, `eval`
succeeds by string concatenation, and `voice_calculator` answers
"The answer is ab" rather than returning the failure message.  (The other
half of the divergence is not expressible in the embedding: `eval("exit()")`
raises `SystemExit`, which derives from `BaseException` but not `Exception`,
so the source's `except Exception` does not catch it and the call raises
instead of degrading — `voice_calculator` is not total on all strings.) -/
theorem nonnumeric_input_not_failure :
    calcNormalize "'a'+'b'" = "'a'+'b'" ∧
    voiceCalculator "'a'+'b'" = "The answer is ab" ∧
    voiceCalculator "'a'+'b'" ≠ calcFailMsg := by
  decide

/-- C7: with the HTTP client importable but no weather credential configured
(the source hard-codes the placeholder key and tests for it), `get_weather`
returns the fixed configuration message for every city and every possible
network behaviour, and performs no network request. -/
theorem weather_not_configured (fetch : String → Option WeatherData) (city : String) :
    getWeather true fetch city
      = ("Please configure weather API key for weather updates.", []) := by
  rfl

/-- C4 counterexample: the claim fails at the word "nineteen".  The word
substitutions run in the dict's insertion order, so "nine" is replaced
before "nineteen" is considered, corrupting "nineteen" to "9teen"; the
normalized expression fails to evaluate and `voice_calculator` returns the
apology, not "The answer is 20". -/
theorem word_number_nineteen_counterexample :
    calcNormalize "calculate nineteen plus one" = "9teen + 1" ∧
    voiceCalculator "calculate nineteen plus one" = calcFailMsg ∧
    voiceCalculator "calculate nineteen plus one" ≠ "The answer is 20" := by
  decide

/-- C4 amended: number words are substituted in the table's fixed order, so
the mapping works exactly for the words whose spelling does not contain an
earlier word of the table — zero through thirteen, fifteen and twenty —
while fourteen, sixteen, seventeen, eighteen and nineteen are corrupted by
the earlier substitution of their embedded word (four, six, seven, eight,
nine) and always produce the failure message. -/
theorem word_numbers_in_substitution_order :
    voiceCalculator "calculate zero plus one" = "The answer is 1" ∧
    voiceCalculator "calculate one plus one" = "The answer is 2" ∧
    voiceCalculator "calculate two plus one" = "The answer is 3" ∧
    voiceCalculator "calculate three plus one" = "The answer is 4" ∧
    voiceCalculator "calculate four plus one" = "The answer is 5" ∧
    voiceCalculator "calculate five plus one" = "The answer is 6" ∧
    voiceCalculator "calculate six plus one" = "The answer is 7" ∧
    voiceCalculator "calculate seven plus one" = "The answer is 8" ∧
    voiceCalculator "calculate eight plus one" = "The answer is 9" ∧
    voiceCalculator "calculate nine plus one" = "The answer is 10" ∧
    voiceCalculator "calculate ten plus one" = "The answer is 11" ∧
    voiceCalculator "calculate eleven plus one" = "The answer is 12" ∧
    voiceCalculator "calculate twelve plus one" = "The answer is 13" ∧
    voiceCalculator "calculate thirteen plus one" = "The answer is 14" ∧
    voiceCalculator "calculate fifteen plus one" = "The answer is 16" ∧
    voiceCalculator "calculate twenty plus one" = "The answer is 21" ∧
    voiceCalculator "calculate fourteen plus one" = calcFailMsg ∧
    voiceCalculator "calculate sixteen plus one" = calcFailMsg ∧
    voiceCalculator "calculate seventeen plus one" = calcFailMsg ∧
    voiceCalculator "calculate eighteen plus one" = calcFailMsg ∧
    voiceCalculator "calculate nineteen plus one" = calcFailMsg := by
  decide

/-- C6 counterexample: the claim fails at the mapping key "my playlist".
The play branch removes every occurrence of "play" from the command, so
"play my playlist" is looked up as "my list": the mapped URL is never
opened and the fallback search URL is opened instead. -/
theorem play_playlist_counterexample :
    musicLookup "my playlist" = some "https://youtu.be/AbkEmIgJMcU?si=V6ETJmVWDU2zOEtq" ∧
    (handleVoiceCommand env0 "play my playlist").2
      = [Action.openUrl "https://www.youtube.com/results?search_query=my+list",
         Action.speak "Searching for my list on YouTube"] ∧
    Action.openUrl "https://youtu.be/AbkEmIgJMcU?si=V6ETJmVWDU2zOEtq"
      ∉ (handleVoiceCommand env0 "play my playlist").2 := by
  decide

/-- C6 amended: for every title `t` that does not itself contain "play",
has no surrounding whitespace, and whose command "play " ++ t matches no
earlier router branch, the play branch looks up exactly `t`: if `t` is a
key of the music mapping, exactly its mapped URL is opened; otherwise the
fallback YouTube search URL with spaces replaced by "+" is opened.  (Keys
containing "play" — "my playlist", "workout playlist" — are excluded:
the branch removes all occurrences of "play", so their lookup misses.) -/
theorem play_branch_lookup (env : Env) (t : String)
    (h1 : containsStr t "play" = false)
    (h2 : matchesEarlierBranch ("play " ++ t) = false)
    (h3 : trimStr t = t) :
    handleVoiceCommand env ("play " ++ t) =
      ("continue",
        match musicLookup t with
        | some url => [Action.openUrl url, Action.speak ("Playing " ++ t)]
        | none =>
          [Action.openUrl ("https://www.youtube.com/results?search_query="
             ++ replaceStr t " " "+"),
           Action.speak ("Searching for " ++ t ++ " on YouTube")]) := by
  simp only [matchesEarlierBranch, Bool.or_eq_false_iff] at h2
  obtain ⟨⟨⟨⟨⟨⟨⟨⟨⟨⟨⟨⟨⟨⟨c1, c2⟩, c3⟩, c4⟩, c5⟩, c6⟩, c7⟩, c8⟩, c9⟩, c10⟩,
    c11⟩, c12⟩, c13⟩, c14⟩, c15⟩ := h2
  have hs : startsWithStr ("play " ++ t) "play" = true := by
    obtain ⟨l⟩ := t
    rfl
  have hsong : trimStr (replaceStr ("play " ++ t) "play" "") = t := by
    rw [replaceStr_play t h1, trimStr_space_cons, h3]
  simp only [handleVoiceCommand, c1, c2, c3, c4, c5, c6, c7, c8, c9, c10, c11, c12,
    c13, c14, c15, hs, hsong, Bool.false_eq_true, if_false, if_true]

/-- Witness for C6: a mapped title opens exactly its mapped URL, and an
unmapped title opens the fallback search URL with spaces turned into "+". -/
theorem play_branch_lookup_witness :
    handleVoiceCommand env0 ("play " ++ "shape of you")
      = ("continue", [Action.openUrl "https://youtu.be/JGwWNGJdvx8",
          Action.speak "Playing shape of you"]) ∧
    handleVoiceCommand env0 ("play " ++ "some unknown title")
      = ("continue",
          [Action.openUrl "https://www.youtube.com/results?search_query=some+unknown+title",
           Action.speak "Searching for some unknown title on YouTube"]) := by
  constructor
  · rw [play_branch_lookup env0 "shape of you" (by decide) (by decide) (by decide)]
    decide
  · rw [play_branch_lookup env0 "some unknown title" (by decide) (by decide) (by decide)]
    decide

/-- C8: `set_reminder_voice` records the pair in the active list and returns
the confirmation naming the delay and the message; the timer body, once it
runs, speaks exactly one alert containing the message and removes the
reminder, so a reminder that was not already pending is absent immediately
after firing.  (Real elapsed time is abstracted: scheduling and the timer
body are two explicit transitions.) -/
theorem reminder_lifecycle (st : AsstState) (text : String) (minutes : Nat)
    (h : (text, minutes) ∉ st.activeReminders) :
    (text, minutes) ∈ (setReminderVoice st text minutes).1.activeReminders ∧
    (setReminderVoice st text minutes).2 = reminderConfirmation text minutes ∧
    (∃ a b, reminderConfirmation text minutes = a ++ toString minutes ++ b) ∧
    (∃ a, reminderConfirmation text minutes = a ++ text) ∧
    (reminderFire (setReminderVoice st text minutes).1 text minutes).spoken
      = st.spoken ++ ["Reminder alert! " ++ text] ∧
    (∃ a, ("Reminder alert! " ++ text : String) = a ++ text) ∧
    (text, minutes) ∉ (reminderFire (setReminderVoice st text minutes).1
      text minutes).activeReminders := by
  refine ⟨?_, rfl, ?_, ?_, ?_, ⟨"Reminder alert! ", rfl⟩, ?_⟩
  · simp [setReminderVoice]
  · exact ⟨"Reminder set for ", " minutes: " ++ text,
      by rw [reminderConfirmation, String.append_assoc]⟩
  · exact ⟨"Reminder set for " ++ toString minutes ++ " minutes: ", rfl⟩
  · simp only [reminderFire, setReminderVoice]
    split <;> rfl
  · simp only [reminderFire, setReminderVoice]
    have hmem : (text, minutes) ∈ st.activeReminders ++ [(text, minutes)] := by simp
    rw [if_pos hmem]
    simp only [removeFirst_append_singleton st.activeReminders (text, minutes) h]
    exact h

/-- Witness for C8: scheduling "drink water" with delay 0 from the empty
state and firing it. -/
theorem reminder_lifecycle_witness :
    ("drink water", 0) ∈ (setReminderVoice ⟨[], []⟩ "drink water" 0).1.activeReminders ∧
    (setReminderVoice ⟨[], []⟩ "drink water" 0).2 = reminderConfirmation "drink water" 0 ∧
    (reminderFire (setReminderVoice ⟨[], []⟩ "drink water" 0).1 "drink water" 0).spoken
      = ([] : List String) ++ ["Reminder alert! drink water"] ∧
    ("drink water", 0) ∉ (reminderFire (setReminderVoice ⟨[], []⟩ "drink water" 0).1
      "drink water" 0).activeReminders := by
  have h := reminder_lifecycle ⟨[], []⟩ "drink water" 0 (by decide)
  exact ⟨h.1, h.2.1, h.2.2.2.2.1, h.2.2.2.2.2.2⟩

/-- C9: a command matching no router branch falls through to the
conversational branch, whose context type is computed by the second
substring scan: "task" for how-to/steps/guide/tutorial, else "creative"
for story/poem/creative/imagine, else "general"; the command itself is
forwarded verbatim. -/
theorem fallback_context_type (env : Env) (command : String)
    (h : matchesAnyRouterBranch command = false) :
    handleVoiceCommand env command =
      ("continue", [Action.converse command
        (if containsAny command ["how to", "steps", "guide", "tutorial"] then "task"
         else if containsAny command ["story", "poem", "creative", "imagine"] then "creative"
         else "general")]) := by
  have h2 : matchesEarlierBranch command = false ∧ startsWithStr command "play" = false := by
    simpa [matchesAnyRouterBranch, Bool.or_eq_false_iff] using h
  obtain ⟨he, hp⟩ := h2
  simp only [matchesEarlierBranch, Bool.or_eq_false_iff] at he
  obtain ⟨⟨⟨⟨⟨⟨⟨⟨⟨⟨⟨⟨⟨⟨c1, c2⟩, c3⟩, c4⟩, c5⟩, c6⟩, c7⟩, c8⟩, c9⟩, c10⟩,
    c11⟩, c12⟩, c13⟩, c14⟩, c15⟩ := he
  simp only [handleVoiceCommand, c1, c2, c3, c4, c5, c6, c7, c8, c9, c10, c11, c12,
    c13, c14, c15, hp, Bool.false_eq_true, if_false]

/-- Witness for C9: one command per context type, none matching any router
branch. -/
theorem fallback_context_type_witness :
    handleVoiceCommand env0 "how to cook rice"
      = ("continue", [Action.converse "how to cook rice" "task"]) ∧
    handleVoiceCommand env0 "tell me a story"
      = ("continue", [Action.converse "tell me a story" "creative"]) ∧
    handleVoiceCommand env0 "hello there"
      = ("continue", [Action.converse "hello there" "general"]) := by
  refine ⟨?_, ?_, ?_⟩
  · rw [fallback_context_type env0 "how to cook rice" (by decide)]
    decide
  · rw [fallback_context_type env0 "tell me a story" (by decide)]
    decide
  · rw [fallback_context_type env0 "hello there" (by decide)]
    decide

/-- C10: every command makes `handle_voice_command` return one of the three
control tokens "exit", "sleep" or "continue", and an iteration of the
session loop breaks out of the listening loop only when the token is
"exit". -/
theorem handle_control_tokens (env : Env) (wake command : String) :
    ((handleVoiceCommand env command).1 = "exit" ∨
     (handleVoiceCommand env command).1 = "sleep" ∨
     (handleVoiceCommand env command).1 = "continue") ∧
    (runStep env wake command = false → (handleVoiceCommand env command).1 = "exit") := by
  constructor
  · unfold handleVoiceCommand
    refine tokenOf_ite (Or.inl rfl) ?_
    refine tokenOf_ite (Or.inr (Or.inl rfl)) ?_
    refine tokenOf_ite (Or.inr (Or.inr rfl)) ?_
    refine tokenOf_ite (Or.inr (Or.inr rfl)) ?_
    refine tokenOf_ite (Or.inr (Or.inr rfl)) ?_
    refine tokenOf_ite (Or.inr (Or.inr rfl)) ?_
    refine tokenOf_ite (Or.inr (Or.inr rfl)) ?_
    refine tokenOf_ite (Or.inr (Or.inr rfl)) ?_
    refine tokenOf_ite (Or.inr (Or.inr rfl)) ?_
    refine tokenOf_ite (Or.inr (Or.inr rfl)) ?_
    refine tokenOf_ite (Or.inr (Or.inr rfl)) ?_
    refine tokenOf_ite (Or.inr (Or.inr rfl)) ?_
    refine tokenOf_ite (Or.inr (Or.inr rfl)) ?_
    refine tokenOf_ite (Or.inr (Or.inr rfl)) ?_
    refine tokenOf_ite (Or.inr (Or.inr rfl)) ?_
    refine tokenOf_ite (Or.inr (Or.inr rfl)) ?_
    exact Or.inr (Or.inr rfl)
  · intro h
    unfold runStep at h
    by_cases h1 : wake = "timeout"
    · rw [if_pos h1] at h
      exact absurd h (by simp)
    rw [if_neg h1] at h
    by_cases h2 : containsStr wake "friday" = true
    · rw [if_pos h2] at h
      by_cases h3 : command ≠ "" ∧ command ≠ "timeout"
      · rw [if_pos h3] at h
        by_cases h4 : (handleVoiceCommand env command).1 = "exit"
        · exact h4
        · rw [if_neg h4] at h
          exact absurd h (by simp)
      · rw [if_neg h3] at h
        exact absurd h (by simp)
    · rw [if_neg h2] at h
      exact absurd h (by simp)

/-- Witness for C10 at a concrete environment, wake word and command. -/
theorem handle_control_tokens_witness :
    ((handleVoiceCommand env0 "what time is it").1 = "exit" ∨
     (handleVoiceCommand env0 "what time is it").1 = "sleep" ∨
     (handleVoiceCommand env0 "what time is it").1 = "continue") ∧
    (runStep env0 "hey friday" "what time is it" = false →
      (handleVoiceCommand env0 "what time is it").1 = "exit") :=
  handle_control_tokens env0 "hey friday" "what time is it"

end Friday
